import Mathlib

/-!
# tomviz `HistogramWidget`

A shallow embedding of `src/tomviz/HistogramWidget.cxx`: the widget's three
operations that carry behaviour (`setLUT`, `histogramClicked`,
`applyCurrentPreset`) written as functions on explicit state, and the
properties of the specification proved about them.

Pointers are natural numbers (addresses); a nullable pointer is an `Option`.
A C++ `double` is a type parameter `D`: the widget only moves such values
around and never computes on them.
-/

namespace tomviz

/-! ## Event links (`vtkEventQtSlotConnect`) -/

/-- Address of a `vtkPVDiscretizableColorTransferFunction`. -/
abbrev LutPtr := Nat

/-- Address of a `vtkPiecewiseFunction` (an opacity function). -/
abbrev PiecewisePtr := Nat

/-- Address of a `vtkSMProxy`. -/
abbrev ProxyPtr := Nat

/-- The `vtkObject`s the widget observes: its own chart editor item, and
opacity functions. -/
inductive VtkObject where
  | HistogramColorOpacityEditor
  | piecewise (p : PiecewisePtr)
  deriving DecidableEq

/-- The VTK events used by the widget. -/
inductive VtkEvent where
  | CursorChangedEvent
  | EndEvent
  | CurrentPointEditEvent
  | ModifiedEvent
  deriving DecidableEq

/-- The widget's Qt slots that are targets of event links. -/
inductive Slot where
  | histogramClicked
  | onScalarOpacityFunctionChanged
  | onCurrentPointEditEvent
  deriving DecidableEq

/-- One entry of the `EventLink` table: `slot` of this widget runs when
`obj` fires `event`. -/
structure Connection where
  obj : VtkObject
  event : VtkEvent
  slot : Slot
  deriving DecidableEq

/-- The call `EventLink->Connect(obj, event, this, SLOT(slot))`: appends an
entry (duplicates are kept); a null object is reported and nothing is added. -/
def Connect (links : List Connection) (obj : Option VtkObject) (event : VtkEvent)
    (slot : Slot) : List Connection :=
  match obj with
  | none => links
  | some o => links ++ [⟨o, event, slot⟩]

/-- The call `EventLink->Disconnect(obj, event, this, SLOT(slot))` with object,
event and slot all given: removes the first matching entry. With a null
object every entry is removed. -/
def Disconnect (links : List Connection) (obj : Option VtkObject) (event : VtkEvent)
    (slot : Slot) : List Connection :=
  match obj with
  | none => []
  | some o => links.erase ⟨o, event, slot⟩

/-! ## The widget -/

/-- The members of `HistogramWidget` that the embedded operations read or write. -/
structure HistogramWidget where
  LUT : Option LutPtr
  ScalarOpacityFunction : Option PiecewisePtr
  LUTProxy : Option ProxyPtr
  EventLink : List Connection
  deriving DecidableEq

/-- The constructor `HistogramWidget::HistogramWidget`: no transfer function is
bound, and the three events of the chart editor are linked to their slots. -/
def HistogramWidget.new : HistogramWidget :=
  let l0 : List Connection := []
  let l1 := Connect l0 (some .HistogramColorOpacityEditor) .CursorChangedEvent .histogramClicked
  let l2 := Connect l1 (some .HistogramColorOpacityEditor) .EndEvent
    .onScalarOpacityFunctionChanged
  let l3 := Connect l2 (some .HistogramColorOpacityEditor) .CurrentPointEditEvent
    .onCurrentPointEditEvent
  { LUT := none, ScalarOpacityFunction := none, LUTProxy := none, EventLink := l3 }

/-- The method `HistogramWidget::setLUT`. `GetScalarOpacityFunction` gives, for
each transfer function, the (nullable) opacity function it is paired with.
The result is `none` when a null pointer is dereferenced (`lut` null and
different from the bound one). -/
def setLUT (GetScalarOpacityFunction : LutPtr → Option PiecewisePtr)
    (self : HistogramWidget) (lut : Option LutPtr) : Option HistogramWidget :=
  if self.LUT ≠ lut then
    let links :=
      match self.ScalarOpacityFunction with
      | some old =>
        Disconnect self.EventLink (some (.piecewise old)) .ModifiedEvent
          .onScalarOpacityFunctionChanged
      | none => self.EventLink
    match lut with
    | none => none
    | some l =>
      let sof := GetScalarOpacityFunction l
      some { self with
        LUT := some l
        ScalarOpacityFunction := sof
        EventLink := Connect links (sof.map .piecewise) .ModifiedEvent
          .onScalarOpacityFunctionChanged }
  else
    some self

/-- The method `HistogramWidget::setLUTProxy`. -/
def setLUTProxy (self : HistogramWidget) (proxy : Option ProxyPtr) : HistogramWidget :=
  if self.LUTProxy ≠ proxy then { self with LUTProxy := proxy } else self

/-- The subscriptions of `onScalarOpacityFunctionChanged` to a `ModifiedEvent`,
in the order they were made. -/
def modifiedSubscriptions (self : HistogramWidget) : List Connection :=
  self.EventLink.filter
    (fun c => decide (c.event = .ModifiedEvent ∧ c.slot = .onScalarOpacityFunctionChanged))

/-! ## Histogram clicks (`ActiveObjects`, `ModuleManager`, `ModuleContour`) -/

/-- Address of a `DataSource`. -/
abbrev DataSourcePtr := Nat

/-- Address of a `vtkSMViewProxy`. -/
abbrev ViewPtr := Nat

/-- A `Module*`: the position of the module in the module manager's list. -/
abbrev ModulePtr := Nat

/-- How a slot ends: it returns, a `Q_ASSERT` fails and aborts it, or it calls
a method through a null pointer. -/
inductive Outcome where
  | returned
  | assertionFailed
  | nullDereference
  deriving DecidableEq

/-- The macro `Q_ASSERT(cond)`: whether execution goes on past it. In a build
with `QT_NO_DEBUG` defined the macro expands to nothing, so execution always
goes on; otherwise it goes on when `cond` holds and aborts when it does not. -/
def Q_ASSERT (QT_NO_DEBUG : Bool) (cond : Bool) : Bool :=
  QT_NO_DEBUG || cond

/-- Modelled from the spec: a visualization module (`Module.h` and
`ModuleContour.h` are not part of the sources). It has a type name
(`"Contour"` for a `ModuleContour`), is bound to a data source and a view and,
when it is a contour module, holds one iso-level (`none` until one is set). -/
structure Module (D : Type) where
  label : String
  dataSource : DataSourcePtr
  view : ViewPtr
  isoValue : Option D
  deriving DecidableEq

/-- The application state `histogramClicked` works on: the three active
objects of `ActiveObjects`, the modules registered with `ModuleManager` (a
`Module*` is a position in this list), and the views asked to render so far. -/
structure App (D : Type) where
  activeDataSource : Option DataSourcePtr
  activeView : Option ViewPtr
  activeModule : Option ModulePtr
  modules : List (Module D)
  renders : List ViewPtr
  deriving DecidableEq

/-- Whether a module is a `ModuleContour`. -/
def Module.isContour {D : Type} (m : Module D) : Bool :=
  m.label == "Contour"

/-- The cast `qobject_cast<ModuleContour*>(p)`: `p` itself when it points to a
contour module, null otherwise (also for a null `p`). -/
def qobject_cast_ModuleContour {D : Type} (modules : List (Module D))
    (p : Option ModulePtr) : Option ModulePtr :=
  match p with
  | none => none
  | some i =>
    match modules[i]? with
    | some m => if m.isContour then some i else none
    | none => none

/-- Modelled from the spec: `ModuleManager::findModules<ModuleContour*>`
(`ModuleManager.h` is not part of the sources), the existing contour modules
bound to the (data source, view) pair, in the order they were registered. No
module is bound to a null data source. -/
def findModules {D : Type} (modules : List (Module D)) (dataSource : Option DataSourcePtr)
    (view : ViewPtr) : List ModulePtr :=
  (List.range modules.length).filter fun i =>
    match modules[i]? with
    | some m => m.isContour && some m.dataSource == dataSource && m.view == view
    | none => false

/-- Modelled from the spec: `ModuleManager::createAndAddModule`
(`ModuleManager.cxx` is not part of the sources), which creates a new module
of the named type bound to the (data source, view) pair and registers it.
Gives the new module's pointer and the new list of modules. A module is bound
to a data source: for a null data source none is created and the pointer is
null. -/
def createAndAddModule {D : Type} (modules : List (Module D)) (label : String)
    (dataSource : Option DataSourcePtr) (view : ViewPtr) :
    Option ModulePtr × List (Module D) :=
  match dataSource with
  | none => (none, modules)
  | some ds =>
    (some modules.length,
      modules ++ [{ label := label, dataSource := ds, view := view, isoValue := none }])

/-- Modelled from the spec: `ModuleContour::setIsoValue` (`ModuleContour.cxx`
is not part of the sources), which sets the iso-level of the module `p`
points to. -/
def setIsoValue {D : Type} (modules : List (Module D)) (p : ModulePtr) (value : D) :
    List (Module D) :=
  match modules[p]? with
  | some m => modules.set p { m with isoValue := some value }
  | none => modules

/-- Modelled from the spec: `ActiveObjects::setActiveModule` (`ActiveObjects.cxx`
is not part of the sources), which marks a module as the active one. -/
def setActiveModule {D : Type} (s : App D) (module : Option ModulePtr) : App D :=
  { s with activeModule := module }

/-- The slot `HistogramWidget::histogramClicked`. `QT_NO_DEBUG` tells whether
the build defines that macro, which turns the two `Q_ASSERT`s into nothing;
`contourValue` is what `HistogramColorOpacityEditor->GetContourValue()`
returns, the clicked value. -/
def histogramClicked {D : Type} (QT_NO_DEBUG : Bool) (contourValue : D) (s : App D) :
    Outcome × App D :=
  let activeDataSource := s.activeDataSource
  if Q_ASSERT QT_NO_DEBUG activeDataSource.isSome = false then
    (.assertionFailed, s)
  else
    match s.activeView with
    | none => (.returned, s)
    | some view =>
      let found : Option ModulePtr × App D :=
        match qobject_cast_ModuleContour s.modules s.activeModule with
        | some contour => (some contour, s)
        | none =>
          let contours := findModules s.modules activeDataSource view
          let made : Option ModulePtr × App D :=
            if contours.length = 0 then
              let created := createAndAddModule s.modules "Contour" activeDataSource view
              (qobject_cast_ModuleContour created.2 created.1, { s with modules := created.2 })
            else
              (contours.head?, s)
          (made.1, setActiveModule made.2 made.1)
      if Q_ASSERT QT_NO_DEBUG found.1.isSome = false then
        (.assertionFailed, found.2)
      else
        match found.1 with
        | none => (.nullDereference, found.2)
        | some contour =>
          (.returned,
            { found.2 with
              modules := setIsoValue found.2.modules contour contourValue
              renders := found.2.renders ++ [view] })

/-! ## Presets (`pqPresetDialog`, `vtkSMTransferFunctionProxy`) -/

/-- What the widget reads from the `pqPresetDialog` that sent `applyPreset`. -/
structure pqPresetDialog (P : Type) where
  loadColors : Bool
  loadOpacities : Bool
  usePresetRange : Bool
  currentPreset : P

/-- The server-manager functions `applyCurrentPreset` calls, over a state `W`
of the proxies, presets `P` and doubles `D`. They belong to the proxy
framework, so they are parameters of the embedding.
* `GetAsProxy w p name` is `vtkSMPropertyHelper(p, name, true).GetAsProxy()`;
* `ApplyPreset w p preset rescale` is the state after
  `vtkSMTransferFunctionProxy::ApplyPreset(p, preset, rescale)`;
* `GetRange w p` is `some range` when
  `vtkSMTransferFunctionProxy::GetRange(p, range)` returns true;
* `RescaleTransferFunction w p range` is the state after
  `vtkSMTransferFunctionProxy::RescaleTransferFunction(p, range)`. -/
structure ServerManager (W P D : Type) where
  GetAsProxy : W → ProxyPtr → String → Option ProxyPtr
  ApplyPreset : W → ProxyPtr → P → Bool → W
  GetRange : W → ProxyPtr → Option (D × D)
  RescaleTransferFunction : W → ProxyPtr → D × D → W

/-- A call with an effect that `applyCurrentPreset` makes. -/
inductive Call (P D : Type) where
  | ApplyPreset (proxy : ProxyPtr) (preset : P) (rescale : Bool)
  | qWarning (msg : String)
  | RescaleTransferFunction (proxy : ProxyPtr) (range : D × D)
  deriving DecidableEq

/-- The state of the proxies together with the calls made so far, oldest first. -/
structure Trace (W P D : Type) where
  world : W
  calls : List (Call P D)

/-- Make the call `vtkSMTransferFunctionProxy::ApplyPreset(proxy, preset, rescale)`. -/
def Trace.applyPreset {W P D : Type} (sm : ServerManager W P D) (t : Trace W P D)
    (proxy : ProxyPtr) (preset : P) (rescale : Bool) : Trace W P D :=
  { world := sm.ApplyPreset t.world proxy preset rescale
    calls := t.calls ++ [.ApplyPreset proxy preset rescale] }

/-- Make the call `qWarning(msg)`. -/
def Trace.warn {W P D : Type} (t : Trace W P D) (msg : String) : Trace W P D :=
  { t with calls := t.calls ++ [.qWarning msg] }

/-- Make the call `vtkSMTransferFunctionProxy::RescaleTransferFunction(proxy, range)`. -/
def Trace.rescale {W P D : Type} (sm : ServerManager W P D) (t : Trace W P D)
    (proxy : ProxyPtr) (range : D × D) : Trace W P D :=
  { world := sm.RescaleTransferFunction t.world proxy range
    calls := t.calls ++ [.RescaleTransferFunction proxy range] }

/-- The range reconciliation at the end of `applyCurrentPreset`, the statement
`if (loadColors && GetRange(lut, range)) ... else if (loadOpacities &&
GetRange(sof, range)) ...`, with the short-circuit evaluation of `&&`. -/
def reconcileRanges {W P D : Type} (sm : ServerManager W P D) (dialog : pqPresetDialog P)
    (lut sof : ProxyPtr) (t : Trace W P D) : Trace W P D :=
  let otherwise : Trace W P D :=
    if dialog.loadOpacities then
      match sm.GetRange t.world sof with
      | some range => t.rescale sm lut range
      | none => t
    else t
  if dialog.loadColors then
    match sm.GetRange t.world lut with
    | some range => t.rescale sm sof range
    | none => otherwise
  else otherwise

/-- The slot `HistogramWidget::applyCurrentPreset`. `QT_NO_DEBUG` tells whether
the build defines that macro, `sender` is
`qobject_cast<pqPresetDialog*>(this->sender())`, `world` the state of the
proxies when the slot starts. Gives how the slot ended, the state of the
proxies then, and the calls it made, in order. -/
def applyCurrentPreset {W P D : Type} (QT_NO_DEBUG : Bool) (sm : ServerManager W P D)
    (self : HistogramWidget) (sender : Option (pqPresetDialog P)) (world : W) :
    Outcome × Trace W P D :=
  let t0 : Trace W P D := { world := world, calls := [] }
  if Q_ASSERT QT_NO_DEBUG sender.isSome = false then
    (.assertionFailed, t0)
  else
    match self.LUTProxy with
    | none => (.returned, t0)
    | some lut =>
      match sender with
      | none => (.nullDereference, t0)
      | some dialog =>
        if dialog.loadColors || dialog.loadOpacities then
          let sof := sm.GetAsProxy world lut "ScalarOpacityFunction"
          let t1 :=
            if dialog.loadColors then
              t0.applyPreset sm lut dialog.currentPreset (!dialog.usePresetRange)
            else t0
          let t2 :=
            if dialog.loadOpacities then
              match sof with
              | some o => t1.applyPreset sm o dialog.currentPreset (!dialog.usePresetRange)
              | none =>
                t1.warn "Cannot load opacities since 'ScalarOpacityFunction' is not present."
            else t1
          let t3 :=
            match sof with
            | some o =>
              if dialog.usePresetRange && (xor dialog.loadColors dialog.loadOpacities) then
                reconcileRanges sm dialog lut o t2
              else t2
            | none => t2
          (.returned, t3)
        else
          (.returned, t0)

/-! ## A concrete proxy framework, to run the preset code on -/

/-- A small state of the proxies: for each proxy the range its control points
span (`none` when it has no control points), and the proxy its
`ScalarOpacityFunction` property holds. -/
structure RangeWorld where
  range : ProxyPtr → Option (Int × Int)
  opacityOf : ProxyPtr → Option ProxyPtr

/-- A small server manager over `RangeWorld`. A preset is the range its
control points span, or `none` when it carries none for the proxy; applying
such a preset changes nothing. Rescaling sets the range. -/
def rangeManager : ServerManager RangeWorld (Option (Int × Int)) Int where
  GetAsProxy w p name := if name = "ScalarOpacityFunction" then w.opacityOf p else none
  ApplyPreset w p preset rescale :=
    match preset with
    | none => w
    | some r =>
      { w with
        range := fun q =>
          if q = p then some (if rescale then (w.range p).getD r else r) else w.range q }
  GetRange w p := w.range p
  RescaleTransferFunction w p r :=
    { w with range := fun q => if q = p then some r else w.range q }

/-! ## Named values and sample states used in the statements -/

/-- The entry of the event table that subscribes `onScalarOpacityFunctionChanged`
to the `ModifiedEvent` of the opacity function at `p`. -/
def opacitySubscription (p : PiecewisePtr) : Connection :=
  ⟨.piecewise p, .ModifiedEvent, .onScalarOpacityFunctionChanged⟩

/-- A state with an outline module and two contour modules, all of the data
source at 1 in the view at 1; `active` is the active module and `dataSource`,
`view` the active data source and view. -/
def sampleApp (dataSource : Option DataSourcePtr) (view : Option ViewPtr)
    (active : Option ModulePtr) : App Int :=
  { activeDataSource := dataSource
    activeView := view
    activeModule := active
    modules := [⟨"Outline", 1, 1, none⟩, ⟨"Contour", 1, 1, some 3⟩, ⟨"Contour", 1, 1, some 4⟩]
    renders := [] }

/-- The state the counterexample of C7 starts from: the data source at 2 and
the view at 1 are active, the only module is a contour module of the data
source at 1, and it is the active module. -/
def otherSourceContourActive : App Int :=
  { activeDataSource := some 2
    activeView := some 1
    activeModule := some 0
    modules := [⟨"Contour", 1, 1, none⟩]
    renders := [] }

/-- The warning `applyCurrentPreset` gives when opacities are asked for and the
transfer function proxy has no opacity function. -/
def missingOpacityWarning : String :=
  "Cannot load opacities since 'ScalarOpacityFunction' is not present."

/-- A widget whose transfer function proxy is the proxy at 0. -/
def presetWidget : HistogramWidget :=
  setLUTProxy HistogramWidget.new (some 0)

/-- A state of the proxies where the opacity function of the proxy at 0 is the
proxy at 1 when `paired` holds and is absent otherwise, with the given ranges
for the two proxies. -/
def presetWorld (paired : Bool) (lutRange sofRange : Option (Int × Int)) : RangeWorld :=
  { range := fun p => if p = 0 then lutRange else if p = 1 then sofRange else none
    opacityOf := fun p => if p = 0 ∧ paired = true then some 1 else none }

/-! ## Rebinding the transfer function -/

/-- C1. From a freshly constructed widget, `setLUT(tf1)` followed by
`setLUT(tf2)` (equal or different transfer functions), where `sof2` is the
opacity function paired with `tf2`: both calls return, the widget is bound to
`tf2` and `sof2`, it holds exactly one `ModifiedEvent` subscription of
`onScalarOpacityFunctionChanged`, the one on `sof2`, and every entry of its
event table on an opacity function is that one entry (nothing is left on a
previously bound opacity function). -/
theorem setLUT_twice_single_subscription
    (GetScalarOpacityFunction : LutPtr → Option PiecewisePtr) (tf1 tf2 : LutPtr)
    (sof2 : PiecewisePtr) (h2 : GetScalarOpacityFunction tf2 = some sof2) :
    ∃ w1 w2 : HistogramWidget,
      setLUT GetScalarOpacityFunction HistogramWidget.new (some tf1) = some w1 ∧
      setLUT GetScalarOpacityFunction w1 (some tf2) = some w2 ∧
      w2.LUT = some tf2 ∧ w2.ScalarOpacityFunction = some sof2 ∧
      modifiedSubscriptions w2 = [opacitySubscription sof2] ∧
      w2.EventLink.count (opacitySubscription sof2) = 1 ∧
      ∀ c ∈ w2.EventLink, ∀ p, c.obj = .piecewise p → c = opacitySubscription sof2 := by
  by_cases h : tf1 = tf2
  · subst h
    simp [setLUT, HistogramWidget.new, Connect, modifiedSubscriptions, opacitySubscription, h2]
  · cases h1 : GetScalarOpacityFunction tf1 with
    | none =>
      simp [setLUT, HistogramWidget.new, Connect, modifiedSubscriptions, opacitySubscription,
        h2, h1, h]
    | some sof1 =>
      simp [setLUT, HistogramWidget.new, Connect, Disconnect, modifiedSubscriptions,
        opacitySubscription, h2, h1, h]

/-- Witness of C1 on two different transfer functions, at addresses 10 and 20,
paired with the opacity functions at 11 and 21. -/
theorem setLUT_twice_single_subscription_witness :
    ∃ w1 w2 : HistogramWidget,
      setLUT (fun l => some (l + 1)) HistogramWidget.new (some 10) = some w1 ∧
      setLUT (fun l => some (l + 1)) w1 (some 20) = some w2 ∧
      w2.LUT = some 20 ∧ w2.ScalarOpacityFunction = some 21 ∧
      modifiedSubscriptions w2 = [opacitySubscription 21] ∧
      w2.EventLink.count (opacitySubscription 21) = 1 ∧
      ∀ c ∈ w2.EventLink, ∀ p, c.obj = .piecewise p → c = opacitySubscription 21 :=
  setLUT_twice_single_subscription (fun l => some (l + 1)) 10 20 21 rfl

/-! ## Histogram clicks -/

/-- A module found by `findModules` is a registered contour module bound to
the (data source, view) pair. -/
theorem findModules_mem {D : Type} (modules : List (Module D)) (dataSource : DataSourcePtr)
    (view : ViewPtr) (i : ModulePtr) (h : i ∈ findModules modules (some dataSource) view) :
    ∃ m, modules[i]? = some m ∧ m.isContour = true ∧ m.dataSource = dataSource ∧
      m.view = view := by
  unfold findModules at h
  rw [List.mem_filter] at h
  obtain ⟨-, hp⟩ := h
  cases hm : modules[i]? with
  | none => simp [hm] at hp
  | some m =>
    refine ⟨m, rfl, ?_⟩
    simpa [hm, and_assoc] using hp

/-- A pointer that casts to a contour module points to a registered contour module. -/
theorem qobject_cast_of_contour {D : Type} (modules : List (Module D)) (i : ModulePtr)
    (m : Module D) (hm : modules[i]? = some m) (hc : m.isContour = true) :
    qobject_cast_ModuleContour modules (some i) = some i := by
  simp [qobject_cast_ModuleContour, hm, hc]

/-- Setting an iso-level keeps the number of modules. -/
theorem setIsoValue_length {D : Type} (modules : List (Module D)) (p : ModulePtr) (v : D) :
    (setIsoValue modules p v).length = modules.length := by
  unfold setIsoValue
  cases modules[p]? <;> simp

/-- Setting an iso-level leaves every other module as it is. -/
theorem setIsoValue_other {D : Type} (modules : List (Module D)) (p j : ModulePtr) (v : D)
    (hj : j ≠ p) : (setIsoValue modules p v)[j]? = modules[j]? := by
  unfold setIsoValue
  cases modules[p]? with
  | none => rfl
  | some m => simp [List.getElem?_set_ne (Ne.symm hj)]

/-- Setting an iso-level of a registered module changes that field of it only. -/
theorem setIsoValue_self {D : Type} (modules : List (Module D)) (p : ModulePtr) (v : D)
    (m : Module D) (hm : modules[p]? = some m) :
    (setIsoValue modules p v)[p]? = some { m with isoValue := some v } := by
  have hlt : p < modules.length := by
    rcases List.getElem?_eq_some.mp hm with ⟨h, -⟩
    exact h
  simp [setIsoValue, hm, hlt]

/-- C6. In either build (`QT_NO_DEBUG` defined or not), with an active data
source and an active view, when the active module
`i` is a contour module `m`, a click at value `v` returns with `m`'s iso-level
set to `v` and a render of the view requested, and nothing else changed: the
same number of modules (none created), every other module as it was, and `i`
still the active module. -/
theorem histogramClicked_active_contour {D : Type} (QT_NO_DEBUG : Bool) (v : D)
    (s : App D)
    (dataSource : DataSourcePtr) (view : ViewPtr) (i : ModulePtr) (m : Module D)
    (hds : s.activeDataSource = some dataSource) (hview : s.activeView = some view)
    (hactive : s.activeModule = some i) (hm : s.modules[i]? = some m)
    (hcontour : m.isContour = true) :
    histogramClicked QT_NO_DEBUG v s =
        (.returned,
          { s with
            modules := s.modules.set i { m with isoValue := some v }
            renders := s.renders ++ [view] }) ∧
      (histogramClicked QT_NO_DEBUG v s).2.modules[i]? = some { m with isoValue := some v } ∧
      (histogramClicked QT_NO_DEBUG v s).2.modules.length = s.modules.length ∧
      (∀ j, j ≠ i → (histogramClicked QT_NO_DEBUG v s).2.modules[j]? = s.modules[j]?) ∧
      (histogramClicked QT_NO_DEBUG v s).2.activeModule = some i := by
  have hcast := qobject_cast_of_contour s.modules i m hm hcontour
  have hrun : histogramClicked QT_NO_DEBUG v s =
      (.returned,
        { s with
          modules := setIsoValue s.modules i v
          renders := s.renders ++ [view] }) := by
    simp [histogramClicked, Q_ASSERT, hds, hview, hactive, hcast]
  refine ⟨?_, ?_, ?_, ?_, ?_⟩
  · rw [hrun]; simp [setIsoValue, hm]
  · rw [hrun]; exact setIsoValue_self s.modules i v m hm
  · rw [hrun]; exact setIsoValue_length s.modules i v
  · intro j hj; rw [hrun]; exact setIsoValue_other s.modules i j v hj
  · rw [hrun]; exact hactive

/-- C8 as stated fails. In a build that defines `QT_NO_DEBUG` the assertion
`Q_ASSERT(activeDataSource)` expands to nothing. With no active data source
and no active view the click then returns silently, the state unchanged; with
no active data source, an active view and an active contour module it returns
having set that module's iso-level and requested a render. -/
theorem histogramClicked_no_data_source_counterexample :
    (sampleApp none none (some 2)).activeDataSource = none ∧
      histogramClicked true 7 (sampleApp none none (some 2)) =
        (.returned, sampleApp none none (some 2)) ∧
      (sampleApp none (some 1) (some 2)).activeDataSource = none ∧
      histogramClicked true 7 (sampleApp none (some 1) (some 2)) =
        (.returned,
          { sampleApp none (some 1) (some 2) with
            modules :=
              [⟨"Outline", 1, 1, none⟩, ⟨"Contour", 1, 1, some 3⟩, ⟨"Contour", 1, 1, some 7⟩]
            renders := [1] }) := by
  decide

/-- C8, amended. In a build that does not define `QT_NO_DEBUG`, with no active
data source, whatever the active view is, a click ends in the failed assertion
`Q_ASSERT(activeDataSource)`, and the state at that point is the state before
the click: no module created, no iso-level or active module changed, no render
requested. -/
theorem histogramClicked_no_data_source_asserting {D : Type} (v : D) (s : App D)
    (hds : s.activeDataSource = none) :
    histogramClicked false v s = (.assertionFailed, s) := by
  simp [histogramClicked, Q_ASSERT, hds]

/-- C9. In either build (`QT_NO_DEBUG` defined or not), with an active data
source and no active view, a click returns and
leaves the state as it was: no module created, no iso-level or active module
changed, no render requested. -/
theorem histogramClicked_no_view {D : Type} (QT_NO_DEBUG : Bool) (v : D) (s : App D)
    (dataSource : DataSourcePtr)
    (hds : s.activeDataSource = some dataSource) (hview : s.activeView = none) :
    histogramClicked QT_NO_DEBUG v s = (.returned, s) := by
  simp [histogramClicked, Q_ASSERT, hds, hview]

/-- C10. In either build (`QT_NO_DEBUG` defined or not), with an active data
source and an active view, when the active module
does not cast to a contour module (or is null) and `findModules` gives the
non-empty list `i :: rest` for the pair, a click at value `v` returns with the
iso-level of module `i`, a registered contour module of the pair, set to `v`:
no module is created and every other module is as it was. (The code also
marks `i` as the active module and requests a render of the view.) -/
theorem histogramClicked_first_existing {D : Type} (QT_NO_DEBUG : Bool) (v : D)
    (s : App D)
    (dataSource : DataSourcePtr) (view : ViewPtr) (i : ModulePtr) (rest : List ModulePtr)
    (hds : s.activeDataSource = some dataSource) (hview : s.activeView = some view)
    (hcast : qobject_cast_ModuleContour s.modules s.activeModule = none)
    (hfound : findModules s.modules (some dataSource) view = i :: rest) :
    ∃ m : Module D, s.modules[i]? = some m ∧ m.isContour = true ∧
      m.dataSource = dataSource ∧ m.view = view ∧
      histogramClicked QT_NO_DEBUG v s =
        (.returned,
          { s with
            activeModule := some i
            modules := s.modules.set i { m with isoValue := some v }
            renders := s.renders ++ [view] }) ∧
      (histogramClicked QT_NO_DEBUG v s).2.modules[i]? = some { m with isoValue := some v } ∧
      (histogramClicked QT_NO_DEBUG v s).2.modules.length = s.modules.length ∧
      (∀ j, j ≠ i → (histogramClicked QT_NO_DEBUG v s).2.modules[j]? = s.modules[j]?) := by
  have hmem : i ∈ findModules s.modules (some dataSource) view := by simp [hfound]
  obtain ⟨m, hm, hc, hmds, hmview⟩ := findModules_mem s.modules dataSource view i hmem
  have hrun : histogramClicked QT_NO_DEBUG v s =
      (.returned,
        { s with
          activeModule := some i
          modules := setIsoValue s.modules i v
          renders := s.renders ++ [view] }) := by
    simp [histogramClicked, Q_ASSERT, hds, hview, hcast, hfound, setActiveModule]
  refine ⟨m, hm, hc, hmds, hmview, ?_, ?_, ?_, ?_⟩
  · rw [hrun]; simp [setIsoValue, hm]
  · rw [hrun]; exact setIsoValue_self s.modules i v m hm
  · rw [hrun]; exact setIsoValue_length s.modules i v
  · intro j hj; rw [hrun]; exact setIsoValue_other s.modules i j v hj

/-- Registering a new contour module for a pair adds it at the end of what
`findModules` gives for that pair. -/
theorem findModules_append_contour {D : Type} (modules : List (Module D))
    (dataSource : DataSourcePtr) (view : ViewPtr) (iso : Option D) :
    findModules (modules ++ [⟨"Contour", dataSource, view, iso⟩]) (some dataSource) view =
      findModules modules (some dataSource) view ++ [modules.length] := by
  unfold findModules
  rw [List.length_append, List.length_singleton, List.range_succ, List.filter_append]
  congr 1
  · apply List.filter_congr
    intro j hj
    rw [List.mem_range] at hj
    rw [List.getElem?_append_left hj]
  · simp [Module.isContour]

/-- C7 as stated fails, here in a build with the assertions on. In
`otherSourceContourActive` a data source and a view
are active and no contour module exists for that pair, yet a click creates no
module and leaves the active module as it was: it sets the iso-level of the
active contour module, which belongs to another data source. -/
theorem histogramClicked_creates_counterexample :
    otherSourceContourActive.activeDataSource = some 2 ∧
      otherSourceContourActive.activeView = some 1 ∧
      findModules otherSourceContourActive.modules (some 2) 1 = [] ∧
      (histogramClicked false 5 otherSourceContourActive).2.modules.length =
        otherSourceContourActive.modules.length ∧
      (histogramClicked false 5 otherSourceContourActive).2.activeModule = some 0 ∧
      (histogramClicked false 5 otherSourceContourActive).2.modules = [⟨"Contour", 1, 1, some 5⟩] ∧
      findModules (histogramClicked false 5 otherSourceContourActive).2.modules (some 2) 1 = [] := by
  decide

/-- C7, amended. In either build (`QT_NO_DEBUG` defined or not), with an
active data source and an active view, when the
active module does not cast to a contour module (or is null) and no contour
module exists for the pair, a click at value `v` returns having created
exactly one module: a contour module bound to the pair, registered after the
existing ones, marked active, with iso-level `v`. The modules that existed are
as they were, the new module is the only contour module of the pair, and a
render of the view is requested. -/
theorem histogramClicked_creates_when_none {D : Type} (QT_NO_DEBUG : Bool) (v : D)
    (s : App D)
    (dataSource : DataSourcePtr) (view : ViewPtr)
    (hds : s.activeDataSource = some dataSource) (hview : s.activeView = some view)
    (hcast : qobject_cast_ModuleContour s.modules s.activeModule = none)
    (hnone : findModules s.modules (some dataSource) view = []) :
    histogramClicked QT_NO_DEBUG v s =
        (.returned,
          { s with
            activeModule := some s.modules.length
            modules := s.modules ++ [⟨"Contour", dataSource, view, some v⟩]
            renders := s.renders ++ [view] }) ∧
      (histogramClicked QT_NO_DEBUG v s).2.modules.length = s.modules.length + 1 ∧
      (∀ j, j < s.modules.length →
        (histogramClicked QT_NO_DEBUG v s).2.modules[j]? = s.modules[j]?) ∧
      findModules (histogramClicked QT_NO_DEBUG v s).2.modules (some dataSource) view =
        [s.modules.length] ∧
      (histogramClicked QT_NO_DEBUG v s).2.activeModule = some s.modules.length := by
  have hrun : histogramClicked QT_NO_DEBUG v s =
      (.returned,
        { s with
          activeModule := some s.modules.length
          modules := s.modules ++ [⟨"Contour", dataSource, view, some v⟩]
          renders := s.renders ++ [view] }) := by
    have hnew : qobject_cast_ModuleContour
        (s.modules ++ [(⟨"Contour", dataSource, view, none⟩ : Module D)])
        (some s.modules.length) = some s.modules.length :=
      qobject_cast_of_contour _ _ ⟨"Contour", dataSource, view, none⟩
        (List.getElem?_concat_length _ _) rfl
    simp [histogramClicked, Q_ASSERT, hds, hview, hcast, hnone, setActiveModule,
      createAndAddModule, hnew, setIsoValue]
  refine ⟨hrun, ?_, ?_, ?_, ?_⟩
  · rw [hrun]; simp
  · intro j hj; rw [hrun]; exact List.getElem?_append_left hj
  · rw [hrun]
    show findModules (s.modules ++ [⟨"Contour", dataSource, view, some v⟩]) (some dataSource)
      view = _
    rw [findModules_append_contour, hnone]; rfl
  · rw [hrun]

/-- Witness of C6: the second contour module is active and is the one updated. -/
theorem histogramClicked_active_contour_witness :
    (sampleApp (some 1) (some 1) (some 2)).activeModule = some 2 ∧
      (sampleApp (some 1) (some 1) (some 2)).modules[2]? = some ⟨"Contour", 1, 1, some 4⟩ ∧
      histogramClicked false 7 (sampleApp (some 1) (some 1) (some 2)) =
        (.returned,
          { sampleApp (some 1) (some 1) (some 2) with
            modules :=
              [⟨"Outline", 1, 1, none⟩, ⟨"Contour", 1, 1, some 3⟩, ⟨"Contour", 1, 1, some 7⟩]
            renders := [1] }) :=
  ⟨rfl, rfl,
    (histogramClicked_active_contour false 7 (sampleApp (some 1) (some 1) (some 2)) 1 1 2
      ⟨"Contour", 1, 1, some 4⟩ rfl rfl rfl rfl rfl).1⟩

/-- Witness of C8, amended: no data source is active, a view is, and so is a
contour module. -/
theorem histogramClicked_no_data_source_asserting_witness :
    (sampleApp none (some 1) (some 2)).activeDataSource = none ∧
      histogramClicked false 7 (sampleApp none (some 1) (some 2)) =
        (.assertionFailed, sampleApp none (some 1) (some 2)) :=
  ⟨rfl, histogramClicked_no_data_source_asserting 7 (sampleApp none (some 1) (some 2)) rfl⟩

/-- Witness of C9: a data source is active, no view is. -/
theorem histogramClicked_no_view_witness :
    (sampleApp (some 1) none (some 1)).activeDataSource = some 1 ∧
      (sampleApp (some 1) none (some 1)).activeView = none ∧
      histogramClicked false 7 (sampleApp (some 1) none (some 1)) =
        (.returned, sampleApp (some 1) none (some 1)) :=
  ⟨rfl, rfl, histogramClicked_no_view false 7 (sampleApp (some 1) none (some 1)) 1 rfl rfl⟩

/-- Witness of C10: the outline module is active, and the first of the two
contour modules of the pair is the one updated. -/
theorem histogramClicked_first_existing_witness :
    qobject_cast_ModuleContour (sampleApp (some 1) (some 1) (some 0)).modules (some 0) = none ∧
      findModules (sampleApp (some 1) (some 1) (some 0)).modules (some 1) 1 = [1, 2] ∧
      histogramClicked false 7 (sampleApp (some 1) (some 1) (some 0)) =
        (.returned,
          { sampleApp (some 1) (some 1) (some 0) with
            activeModule := some 1
            modules :=
              [⟨"Outline", 1, 1, none⟩, ⟨"Contour", 1, 1, some 7⟩, ⟨"Contour", 1, 1, some 4⟩]
            renders := [1] }) := by
  refine ⟨by decide, by decide, ?_⟩
  obtain ⟨m, hm, -, -, -, hrun, -⟩ :=
    histogramClicked_first_existing false 7 (sampleApp (some 1) (some 1) (some 0)) 1 1 1 [2]
      rfl rfl (by decide) (by decide)
  have hm1 : m = ⟨"Contour", 1, 1, some 3⟩ := by
    have h : (sampleApp (some 1) (some 1) (some 0)).modules[1]? =
        some ⟨"Contour", 1, 1, some 3⟩ := rfl
    rw [h] at hm
    exact (Option.some.inj hm).symm
  subst hm1
  exact hrun

/-- Witness of C7, amended: the data source at 2 is active, it has no contour
module, and the active module is the outline module. -/
theorem histogramClicked_creates_when_none_witness :
    qobject_cast_ModuleContour (sampleApp (some 2) (some 1) (some 0)).modules (some 0) = none ∧
      findModules (sampleApp (some 2) (some 1) (some 0)).modules (some 2) 1 = [] ∧
      histogramClicked false 7 (sampleApp (some 2) (some 1) (some 0)) =
        (.returned,
          { sampleApp (some 2) (some 1) (some 0) with
            activeModule := some 3
            modules :=
              [⟨"Outline", 1, 1, none⟩, ⟨"Contour", 1, 1, some 3⟩, ⟨"Contour", 1, 1, some 4⟩,
                ⟨"Contour", 2, 1, some 7⟩]
            renders := [1] }) :=
  ⟨by decide, by decide,
    (histogramClicked_creates_when_none false 7 (sampleApp (some 2) (some 1) (some 0)) 2 1
      rfl rfl (by decide) (by decide)).1⟩

/-! ## Applying a preset -/

/-- C2 as stated fails. The transfer function proxy (0) has no control
points, the preset carries none, the opacity function (1) spans `(0, 1)`.
With only load-colors and the preset's range, `GetRange` fails on the transfer
function after the preset is applied, so the guard skips the rescale: the
slot makes the one `ApplyPreset` call, and the opacity function's range,
`(0, 1)`, is not the range of the transfer function, which has none. -/
theorem applyCurrentPreset_colors_counterexample :
    presetWidget.LUTProxy = some 0 ∧
      rangeManager.GetAsProxy (presetWorld true none (some (0, 1))) 0 "ScalarOpacityFunction" =
        some 1 ∧
      (applyCurrentPreset false rangeManager presetWidget (some ⟨true, false, true, none⟩)
        (presetWorld true none (some (0, 1)))).1 = .returned ∧
      (applyCurrentPreset false rangeManager presetWidget (some ⟨true, false, true, none⟩)
        (presetWorld true none (some (0, 1)))).2.calls = [.ApplyPreset 0 none false] ∧
      rangeManager.GetRange
        (applyCurrentPreset false rangeManager presetWidget (some ⟨true, false, true, none⟩)
          (presetWorld true none (some (0, 1)))).2.world 1 = some (0, 1) ∧
      rangeManager.GetRange
        (rangeManager.ApplyPreset (presetWorld true none (some (0, 1))) 0 none false) 0 = none ∧
      rangeManager.GetRange
        (applyCurrentPreset false rangeManager presetWidget (some ⟨true, false, true, none⟩)
          (presetWorld true none (some (0, 1)))).2.world 1 ≠
        rangeManager.GetRange
          (rangeManager.ApplyPreset (presetWorld true none (some (0, 1))) 0 none false) 0 := by
  decide

/-- C2, amended. A transfer function proxy `lut` is set and its opacity
function proxy `sof` is present; the dialog asks for colors only, with the
preset's range; and `GetRange` succeeds on `lut` after the color preset was
applied, giving `range`. Then the slot returns after exactly two calls,
`ApplyPreset(lut, preset, false)` and `RescaleTransferFunction(sof, range)`,
and, `RescaleTransferFunction` setting the range of the proxy it is given, the
opacity function ends with the range the transfer function had after the
preset was applied. -/
theorem applyCurrentPreset_colors_copies_range {W P D : Type} (QT_NO_DEBUG : Bool)
    (sm : ServerManager W P D)
    (self : HistogramWidget) (dialog : pqPresetDialog P) (world : W) (lut sof : ProxyPtr)
    (range : D × D)
    (hlut : self.LUTProxy = some lut)
    (hsof : sm.GetAsProxy world lut "ScalarOpacityFunction" = some sof)
    (hcolors : dialog.loadColors = true) (hopacities : dialog.loadOpacities = false)
    (hpreset : dialog.usePresetRange = true)
    (hrange : sm.GetRange (sm.ApplyPreset world lut dialog.currentPreset false) lut = some range)
    (hrescale : ∀ (w : W) (p : ProxyPtr) (r : D × D),
      sm.GetRange (sm.RescaleTransferFunction w p r) p = some r) :
    (applyCurrentPreset QT_NO_DEBUG sm self (some dialog) world).1 = .returned ∧
      (applyCurrentPreset QT_NO_DEBUG sm self (some dialog) world).2.calls =
        [.ApplyPreset lut dialog.currentPreset false, .RescaleTransferFunction sof range] ∧
      (applyCurrentPreset QT_NO_DEBUG sm self (some dialog) world).2.world =
        sm.RescaleTransferFunction (sm.ApplyPreset world lut dialog.currentPreset false)
          sof range ∧
      sm.GetRange (applyCurrentPreset QT_NO_DEBUG sm self (some dialog) world).2.world sof =
        sm.GetRange (sm.ApplyPreset world lut dialog.currentPreset false) lut := by
  have hrun : applyCurrentPreset QT_NO_DEBUG sm self (some dialog) world =
      (.returned,
        { world := sm.RescaleTransferFunction
            (sm.ApplyPreset world lut dialog.currentPreset false) sof range
          calls := [.ApplyPreset lut dialog.currentPreset false,
            .RescaleTransferFunction sof range] }) := by
    simp [applyCurrentPreset, Q_ASSERT, reconcileRanges, Trace.applyPreset, Trace.rescale,
      hlut, hsof, hcolors, hopacities, hpreset, hrange]
  rw [hrun]
  exact ⟨rfl, rfl, rfl, by rw [hrange]; exact hrescale _ _ _⟩

/-- Witness of C2, amended: the preset spans `(3, 7)`, the opacity function
spans `(0, 1)` before and `(3, 7)` after. -/
theorem applyCurrentPreset_colors_copies_range_witness :
    rangeManager.GetRange
        (rangeManager.ApplyPreset (presetWorld true none (some (0, 1))) 0 (some (3, 7)) false)
        0 = some (3, 7) ∧
      (∀ (w : RangeWorld) (p : ProxyPtr) (r : Int × Int),
        rangeManager.GetRange (rangeManager.RescaleTransferFunction w p r) p = some r) ∧
      (applyCurrentPreset false rangeManager presetWidget (some ⟨true, false, true, some (3, 7)⟩)
        (presetWorld true none (some (0, 1)))).2.calls =
        [.ApplyPreset 0 (some (3, 7)) false, .RescaleTransferFunction 1 (3, 7)] ∧
      rangeManager.GetRange
        (applyCurrentPreset false rangeManager presetWidget (some ⟨true, false, true, some (3, 7)⟩)
          (presetWorld true none (some (0, 1)))).2.world 1 =
        rangeManager.GetRange
          (rangeManager.ApplyPreset (presetWorld true none (some (0, 1))) 0 (some (3, 7)) false)
          0 :=
  have hrescale : ∀ (w : RangeWorld) (p : ProxyPtr) (r : Int × Int),
      rangeManager.GetRange (rangeManager.RescaleTransferFunction w p r) p = some r := by
    intro w p r
    simp [rangeManager]
  have h := applyCurrentPreset_colors_copies_range false rangeManager presetWidget
    ⟨true, false, true, some (3, 7)⟩ (presetWorld true none (some (0, 1))) 0 1 (3, 7)
    rfl (by decide) rfl rfl rfl (by decide) hrescale
  ⟨by decide, hrescale, h.2.1, h.2.2.2⟩

/-- C3 as stated fails. The opacity function (1) has no control points, the
preset carries none, the transfer function proxy (0) spans `(0, 1)`. With only
load-opacities and the preset's range, `GetRange` fails on the opacity
function after the preset is applied, so the guard skips the rescale: the slot
makes the one `ApplyPreset` call, and the transfer function's range, `(0, 1)`,
is not the range of the opacity function, which has none. -/
theorem applyCurrentPreset_opacities_counterexample :
    presetWidget.LUTProxy = some 0 ∧
      rangeManager.GetAsProxy (presetWorld true (some (0, 1)) none) 0 "ScalarOpacityFunction" =
        some 1 ∧
      (applyCurrentPreset false rangeManager presetWidget (some ⟨false, true, true, none⟩)
        (presetWorld true (some (0, 1)) none)).1 = .returned ∧
      (applyCurrentPreset false rangeManager presetWidget (some ⟨false, true, true, none⟩)
        (presetWorld true (some (0, 1)) none)).2.calls = [.ApplyPreset 1 none false] ∧
      rangeManager.GetRange
        (applyCurrentPreset false rangeManager presetWidget (some ⟨false, true, true, none⟩)
          (presetWorld true (some (0, 1)) none)).2.world 0 = some (0, 1) ∧
      rangeManager.GetRange
        (rangeManager.ApplyPreset (presetWorld true (some (0, 1)) none) 1 none false) 1 = none ∧
      rangeManager.GetRange
        (applyCurrentPreset false rangeManager presetWidget (some ⟨false, true, true, none⟩)
          (presetWorld true (some (0, 1)) none)).2.world 0 ≠
        rangeManager.GetRange
          (rangeManager.ApplyPreset (presetWorld true (some (0, 1)) none) 1 none false) 1 := by
  decide

/-- C3, amended. A transfer function proxy `lut` is set and its opacity
function proxy `sof` is present; the dialog asks for opacities only, with the
preset's range; and `GetRange` succeeds on `sof` after the opacity preset was
applied, giving `range`. Then the slot returns after exactly two calls,
`ApplyPreset(sof, preset, false)` and `RescaleTransferFunction(lut, range)`,
and, `RescaleTransferFunction` setting the range of the proxy it is given, the
transfer function ends with the range the opacity function had after the
preset was applied. -/
theorem applyCurrentPreset_opacities_copies_range {W P D : Type} (QT_NO_DEBUG : Bool)
    (sm : ServerManager W P D)
    (self : HistogramWidget) (dialog : pqPresetDialog P) (world : W) (lut sof : ProxyPtr)
    (range : D × D)
    (hlut : self.LUTProxy = some lut)
    (hsof : sm.GetAsProxy world lut "ScalarOpacityFunction" = some sof)
    (hcolors : dialog.loadColors = false) (hopacities : dialog.loadOpacities = true)
    (hpreset : dialog.usePresetRange = true)
    (hrange : sm.GetRange (sm.ApplyPreset world sof dialog.currentPreset false) sof = some range)
    (hrescale : ∀ (w : W) (p : ProxyPtr) (r : D × D),
      sm.GetRange (sm.RescaleTransferFunction w p r) p = some r) :
    (applyCurrentPreset QT_NO_DEBUG sm self (some dialog) world).1 = .returned ∧
      (applyCurrentPreset QT_NO_DEBUG sm self (some dialog) world).2.calls =
        [.ApplyPreset sof dialog.currentPreset false, .RescaleTransferFunction lut range] ∧
      (applyCurrentPreset QT_NO_DEBUG sm self (some dialog) world).2.world =
        sm.RescaleTransferFunction (sm.ApplyPreset world sof dialog.currentPreset false)
          lut range ∧
      sm.GetRange (applyCurrentPreset QT_NO_DEBUG sm self (some dialog) world).2.world lut =
        sm.GetRange (sm.ApplyPreset world sof dialog.currentPreset false) sof := by
  have hrun : applyCurrentPreset QT_NO_DEBUG sm self (some dialog) world =
      (.returned,
        { world := sm.RescaleTransferFunction
            (sm.ApplyPreset world sof dialog.currentPreset false) lut range
          calls := [.ApplyPreset sof dialog.currentPreset false,
            .RescaleTransferFunction lut range] }) := by
    simp [applyCurrentPreset, Q_ASSERT, reconcileRanges, Trace.applyPreset, Trace.rescale,
      hlut, hsof, hcolors, hopacities, hpreset, hrange]
  rw [hrun]
  exact ⟨rfl, rfl, rfl, by rw [hrange]; exact hrescale _ _ _⟩

/-- Witness of C3, amended: the preset spans `(3, 7)`, the transfer function
spans `(0, 1)` before and `(3, 7)` after. -/
theorem applyCurrentPreset_opacities_copies_range_witness :
    rangeManager.GetRange
        (rangeManager.ApplyPreset (presetWorld true (some (0, 1)) none) 1 (some (3, 7)) false)
        1 = some (3, 7) ∧
      (∀ (w : RangeWorld) (p : ProxyPtr) (r : Int × Int),
        rangeManager.GetRange (rangeManager.RescaleTransferFunction w p r) p = some r) ∧
      (applyCurrentPreset false rangeManager presetWidget (some ⟨false, true, true, some (3, 7)⟩)
        (presetWorld true (some (0, 1)) none)).2.calls =
        [.ApplyPreset 1 (some (3, 7)) false, .RescaleTransferFunction 0 (3, 7)] ∧
      rangeManager.GetRange
        (applyCurrentPreset false rangeManager presetWidget (some ⟨false, true, true, some (3, 7)⟩)
          (presetWorld true (some (0, 1)) none)).2.world 0 =
        rangeManager.GetRange
          (rangeManager.ApplyPreset (presetWorld true (some (0, 1)) none) 1 (some (3, 7)) false)
          1 :=
  have hrescale : ∀ (w : RangeWorld) (p : ProxyPtr) (r : Int × Int),
      rangeManager.GetRange (rangeManager.RescaleTransferFunction w p r) p = some r := by
    intro w p r
    simp [rangeManager]
  have h := applyCurrentPreset_opacities_copies_range false rangeManager presetWidget
    ⟨false, true, true, some (3, 7)⟩ (presetWorld true (some (0, 1)) none) 0 1 (3, 7)
    rfl (by decide) rfl rfl rfl (by decide) hrescale
  ⟨by decide, hrescale, h.2.1, h.2.2.2⟩

/-- C4. When the dialog asks for both colors and opacities, or for neither,
whatever the preset, the use of its range, the widget and the state of the
proxies (opacity function present or absent), the slot returns and none of
the calls it made is a `RescaleTransferFunction`, on any proxy. -/
theorem applyCurrentPreset_same_flags_no_rescale {W P D : Type} (QT_NO_DEBUG : Bool)
    (sm : ServerManager W P D)
    (self : HistogramWidget) (dialog : pqPresetDialog P) (world : W)
    (hsame : dialog.loadColors = dialog.loadOpacities) :
    (applyCurrentPreset QT_NO_DEBUG sm self (some dialog) world).1 = .returned ∧
      ∀ c ∈ (applyCurrentPreset QT_NO_DEBUG sm self (some dialog) world).2.calls,
        ∀ (proxy : ProxyPtr) (range : D × D), c ≠ .RescaleTransferFunction proxy range := by
  cases hlut : self.LUTProxy with
  | none => simp [applyCurrentPreset, Q_ASSERT, hlut]
  | some lut =>
    cases hopacities : dialog.loadOpacities with
    | false =>
      simp [applyCurrentPreset, Q_ASSERT, hlut, hsame, hopacities]
    | true =>
      cases hsof : sm.GetAsProxy world lut "ScalarOpacityFunction" with
      | none =>
        simp [applyCurrentPreset, Q_ASSERT, hlut, hsame, hopacities, hsof, Trace.applyPreset, Trace.warn]
      | some sof =>
        simp [applyCurrentPreset, Q_ASSERT, hlut, hsame, hopacities, hsof, Trace.applyPreset]

/-- Witness of C4: colors and opacities both asked for, with the preset's
range, an opacity function present. -/
theorem applyCurrentPreset_same_flags_no_rescale_witness :
    (applyCurrentPreset false rangeManager presetWidget (some ⟨true, true, true, some (3, 7)⟩)
        (presetWorld true (some (0, 1)) (some (0, 1)))).2.calls =
        [.ApplyPreset 0 (some (3, 7)) false, .ApplyPreset 1 (some (3, 7)) false] ∧
      ∀ c ∈ (applyCurrentPreset false rangeManager presetWidget
          (some ⟨true, true, true, some (3, 7)⟩)
          (presetWorld true (some (0, 1)) (some (0, 1)))).2.calls,
        ∀ (proxy : ProxyPtr) (range : Int × Int), c ≠ .RescaleTransferFunction proxy range :=
  ⟨by decide,
    (applyCurrentPreset_same_flags_no_rescale false rangeManager presetWidget
      ⟨true, true, true, some (3, 7)⟩ (presetWorld true (some (0, 1)) (some (0, 1))) rfl).2⟩

/-- C5. A transfer function proxy `lut` is set and has no opacity function
proxy, and the dialog asks for opacities. Whatever the preset and the other
two settings, the slot returns. Its calls are the color preset on `lut` when
colors are asked for, then the warning, and nothing else: no preset is applied
to another proxy and nothing is rescaled. The proxies end as the color preset
on `lut` leaves them, or unchanged when colors are not asked for. -/
theorem applyCurrentPreset_missing_opacity_function {W P D : Type} (QT_NO_DEBUG : Bool)
    (sm : ServerManager W P D)
    (self : HistogramWidget) (dialog : pqPresetDialog P) (world : W) (lut : ProxyPtr)
    (hlut : self.LUTProxy = some lut)
    (hsof : sm.GetAsProxy world lut "ScalarOpacityFunction" = none)
    (hopacities : dialog.loadOpacities = true) :
    (applyCurrentPreset QT_NO_DEBUG sm self (some dialog) world).1 = .returned ∧
      (applyCurrentPreset QT_NO_DEBUG sm self (some dialog) world).2.calls =
        (if dialog.loadColors then
          [.ApplyPreset lut dialog.currentPreset (!dialog.usePresetRange)]
        else []) ++ [.qWarning missingOpacityWarning] ∧
      (applyCurrentPreset QT_NO_DEBUG sm self (some dialog) world).2.world =
        (if dialog.loadColors then
          sm.ApplyPreset world lut dialog.currentPreset (!dialog.usePresetRange)
        else world) := by
  cases hcolors : dialog.loadColors <;>
    simp [applyCurrentPreset, Q_ASSERT, hlut, hsof, hopacities, hcolors, Trace.applyPreset, Trace.warn,
      missingOpacityWarning]

/-- Witness of C5: colors and opacities asked for, with the preset's range, and
no opacity function. -/
theorem applyCurrentPreset_missing_opacity_function_witness :
    rangeManager.GetAsProxy (presetWorld false (some (0, 1)) none) 0 "ScalarOpacityFunction" =
        none ∧
      (applyCurrentPreset false rangeManager presetWidget (some ⟨true, true, true, some (3, 7)⟩)
        (presetWorld false (some (0, 1)) none)).1 = .returned ∧
      (applyCurrentPreset false rangeManager presetWidget (some ⟨true, true, true, some (3, 7)⟩)
        (presetWorld false (some (0, 1)) none)).2.calls =
        [.ApplyPreset 0 (some (3, 7)) false, .qWarning missingOpacityWarning] :=
  have h := applyCurrentPreset_missing_opacity_function false rangeManager presetWidget
    ⟨true, true, true, some (3, 7)⟩ (presetWorld false (some (0, 1)) none) 0
    rfl (by decide) rfl
  ⟨by decide, h.1, h.2.1⟩

end tomviz
